import Mathlib

/-!
Verification of the Agronomic Insight Engine of `oracle-orchard-sync`.

This file shallowly embeds the core TypeScript functions of the repository
(rule evaluators, aggregator/priority resolver, plot resolver, forecast
de-duplication, agronomic formulas) as Lean definitions and proves the
behavioural properties stated in the specification against them.

Modelling conventions:
* JS `number` values used only in threshold comparisons, table data and
  list folds are modelled as `ℚ` (exact, decidable); the transcendental
  agronomic formulas (`Math.exp`, `Math.cos`, ...) are modelled over `ℝ`.
* `x.toFixed(2)` followed by `Number(...)` is modelled as rounding to a
  multiple of `1/100` (`round2`).
* A JS value that is `NaN` is modelled by the constructor `JsNum.nan`;
  `NaN` propagates through arithmetic, `toFixed` and `Math.max`.
* Optional record fields read with `x || 0` are modelled as `Option ℚ`
  together with `jsOr0`.
* Human-readable Thai/emoji `message` strings, `bulletPoints`, and
  `last_update_hours` (wall-clock arithmetic) are not modelled; advisories
  instead carry the `trigger_data.condition` tag that identifies which
  rule fired, exactly as in the source `trigger_data`.
-/

namespace OrchardSync

/-- JS boolean-or default: `x || 0` on an optional numeric field. -/
def jsOr0 : Option ℚ → ℚ
  | none => 0
  | some x => x

/-- JS `s.includes(pat)`: `pat` occurs as a contiguous substring of `s`. -/
def jsIncludes (s pat : String) : Bool :=
  decide (pat.data <:+: s.data)

/-- JS `s.toLowerCase()` (character-wise ASCII lowering; the identifiers and
Thai keywords involved have no other case mappings). -/
def jsToLower (s : String) : String :=
  String.mk (s.data.map Char.toLower)

/-- JS `s.trim()`: strip leading and trailing whitespace. -/
def jsTrim (s : String) : String :=
  String.mk (((s.data.dropWhile Char.isWhitespace).reverse.dropWhile
    Char.isWhitespace).reverse)

-- ===========================================================================
-- Data model (src/types/weather.ts, src/lib/plot-mapper.ts,
-- src/types/orchard-core.ts)
-- ===========================================================================

/-- `WeatherInsight.category` from `src/types/weather.ts`:
`'irrigation' | 'disease' | 'physiology'` (the schema has no `'pest'` value). -/
inductive Category
  | irrigation
  | disease
  | physiology
deriving DecidableEq, Repr

/-- The literal string of a `category` value as written in the source. -/
def categoryStr : Category → String
  | .irrigation => "irrigation"
  | .disease => "disease"
  | .physiology => "physiology"

/-- `WeatherInsight.status_level` from `src/types/weather.ts`. -/
inductive Severity
  | critical
  | warning
  | optimal
  | info
deriving DecidableEq, Repr

/-- `DailyForecast` row from `src/types/weather.ts` (Phase 1 schema). -/
structure DailyForecast where
  forecast_date : String
  location_id : String
  swdown : ℚ
  tc_max : ℚ
  tc_min : ℚ
  rh_percent : ℚ
  rain_mm : ℚ
deriving DecidableEq, Repr

/-- `WeatherInsight` from `src/types/weather.ts`; the free-text `message`
is omitted, `condition` is the `trigger_data.condition` tag. -/
structure WeatherInsight where
  location_id : String
  target_date : String
  category : Category
  status_level : Severity
  condition : String
deriving DecidableEq, Repr

/-- `GrowthStage` from `src/lib/plot-mapper.ts`. -/
inductive GrowthStage
  | preparing_leaf
  | induction
  | bloom
  | fruit_set
  | harvest
  | seedling
deriving DecidableEq, Repr

/-- The literal string of a `GrowthStage` value (already lower-case). -/
def stageStr : GrowthStage → String
  | .preparing_leaf => "preparing_leaf"
  | .induction => "induction"
  | .bloom => "bloom"
  | .fruit_set => "fruit_set"
  | .harvest => "harvest"
  | .seedling => "seedling"

/-- `SoilType` from `src/lib/plot-mapper.ts`. -/
inductive SoilType
  | sandy
  | loamy
  | loamy_sandy
  | clayey
  | clayey_filled
deriving DecidableEq, Repr

/-- The literal string of a `SoilType` value. -/
def soilStr : SoilType → String
  | .sandy => "sandy"
  | .loamy => "loamy"
  | .loamy_sandy => "loamy_sandy"
  | .clayey => "clayey"
  | .clayey_filled => "clayey_filled"

/-- `WaterSourceQuality` from `src/lib/plot-mapper.ts`. -/
inductive WaterSourceQuality
  | normal
  | high_manganese_iron
  | clean_mountain
  | brackish
deriving DecidableEq, Repr

/-- `PlotPersonality.critical_asset` from `src/lib/plot-mapper.ts`:
`'durian' | 'mangosteen' | 'showcase' | 'mixed'`. -/
inductive CriticalAsset
  | durian
  | mangosteen
  | showcase
  | mixed
deriving DecidableEq, Repr

/-- The literal string of a `critical_asset` value (already lower-case). -/
def assetStr : CriticalAsset → String
  | .durian => "durian"
  | .mangosteen => "mangosteen"
  | .showcase => "showcase"
  | .mixed => "mixed"

/-- `PlotPersonality` from `src/lib/plot-mapper.ts`. -/
structure PlotPersonality where
  sensitivity_drought : ℚ
  sensitivity_flood : ℚ
  critical_asset : CriticalAsset
  notes : String
deriving DecidableEq, Repr

/-- `PlotProfile` from `src/lib/plot-mapper.ts` (extends `PlotLocation`). -/
structure PlotProfile where
  lat : ℚ
  lon : ℚ
  name_th : String
  stage : GrowthStage
  soil : SoilType
  water : WaterSourceQuality
  personality : PlotPersonality
deriving DecidableEq, Repr

-- ===========================================================================
-- Rule evaluator, context-aware variant (`analyzeIrrigation`, `analyzePest`
-- from the Phase 2 conditions module)
-- ===========================================================================

/-- The `const isSandy = context?.soil === 'sandy'` computation shared by the
irrigation analyzer's threshold and severity decisions. -/
def irrigationIsSandy (context : Option PlotProfile) : Bool :=
  match context with
  | some c => c.soil == SoilType.sandy
  | none => false

namespace ConditionsCtx

/-- `analyzeIrrigation(day, context?)` from the context-aware conditions
module: condition 1 low humidity (threshold 60 for sandy soil, else 50;
severity `critical` iff sandy and `rh < 50`), condition 2 heat stress
(`temp > 35 && swdown > 600`, `critical` iff stage is bloom), condition 3
low light (`swdown < 300`, `optimal`); first matching condition returns. -/
def analyzeIrrigation (day : DailyForecast) (context : Option PlotProfile) :
    Option WeatherInsight :=
  let isSandy : Bool := irrigationIsSandy context
  let rhThreshold : ℚ := if isSandy then 60 else 50
  if day.rh_percent < rhThreshold then
    some { location_id := day.location_id
           target_date := day.forecast_date
           category := .irrigation
           status_level := if isSandy ∧ day.rh_percent < 50 then .critical else .warning
           condition := "High Transpiration" }
  else if day.tc_max > 35 ∧ day.swdown > 600 then
    let isBloom : Bool := match context with
      | some c => c.stage == GrowthStage.bloom
      | none => false
    some { location_id := day.location_id
           target_date := day.forecast_date
           category := .irrigation
           status_level := if isBloom then .critical else .warning
           condition := "Heat Stress" }
  else if day.swdown < 300 then
    some { location_id := day.location_id
           target_date := day.forecast_date
           category := .irrigation
           status_level := .optimal
           condition := "Low Light" }
  else
    none

/-- `analyzePest(day, context?)` from the context-aware conditions module.
Note: both branches really write `category: 'disease'` in the source. -/
def analyzePest (day : DailyForecast) (context : Option PlotProfile) :
    Option WeatherInsight :=
  if day.tc_max > 33 ∧ day.rh_percent < 50 then
    some { location_id := day.location_id
           target_date := day.forecast_date
           category := .disease
           status_level := .warning
           condition := "Red Mite Boom" }
  else if day.rain_mm = 0 then
    let sensitiveStage : Bool := match context with
      | some c => c.stage == GrowthStage.bloom || c.stage == GrowthStage.preparing_leaf
      | none => false
    some { location_id := day.location_id
           target_date := day.forecast_date
           category := .disease
           status_level := if sensitiveStage then .critical else .info
           condition := "Thrips Alert" }
  else
    none

end ConditionsCtx

-- ===========================================================================
-- Rule evaluator, context-naive variant (`analyzePest` from
-- src/lib/conditions.ts, Phase 1)
-- ===========================================================================

namespace Conditions

/-- `analyzePest(day)` from `src/lib/conditions.ts`. The source comments:
"Pests fall under disease category in our schema". -/
def analyzePest (day : DailyForecast) : Option WeatherInsight :=
  if day.tc_max > 33 ∧ day.rh_percent < 50 then
    some { location_id := day.location_id
           target_date := day.forecast_date
           category := .disease
           status_level := .warning
           condition := "Red Mite Boom" }
  else if day.rain_mm = 0 then
    some { location_id := day.location_id
           target_date := day.forecast_date
           category := .disease
           status_level := .info
           condition := "Thrips Alert" }
  else
    none

end Conditions

-- ===========================================================================
-- Plot context resolver (src/lib/plot-mapper.ts)
-- ===========================================================================

/-- `DEFAULT_PROFILE` (Suan Ban / house) from `src/lib/plot-mapper.ts`. -/
def DEFAULT_PROFILE : PlotProfile :=
  { lat := 12.552967
    lon := 102.155557
    name_th := "สวนบ้าน"
    stage := .bloom
    soil := .loamy_sandy
    water := .clean_mountain
    personality :=
      { sensitivity_drought := 9
        sensitivity_flood := 3
        critical_asset := .showcase
        notes := "หน้าร้าน/จุดรับแขก ห้ามโทรมเด็ดขาด (Nursery Zone)" } }

/-- The `'tamarind'` entry of `PLOT_PROFILES`. -/
def tamarindProfile : PlotProfile :=
  { lat := 12.658602
    lon := 102.204633
    name_th := "สวนมะขาม"
    stage := .bloom
    soil := .sandy
    water := .high_manganese_iron
    personality :=
      { sensitivity_drought := 10
        sensitivity_flood := 2
        critical_asset := .durian
        notes := "ไข่ในหิน (Crown Jewel). ห้ามขาดน้ำ เกษตรประณีต" } }

/-- The `'lower'` entry of `PLOT_PROFILES`. -/
def lowerProfile : PlotProfile :=
  { lat := 12.546194
    lon := 102.140010
    name_th := "สวนล่าง"
    stage := .preparing_leaf
    soil := .clayey_filled
    water := .normal
    personality :=
      { sensitivity_drought := 4
        sensitivity_flood := 8
        critical_asset := .mangosteen
        notes := "ปราการด่านสุดท้าย (The Fortress). ถึกทน แต่ระวังน้ำท่วม" } }

/-- The `'pram'` entry of `PLOT_PROFILES`. -/
def pramProfile : PlotProfile :=
  { lat := 12.552967
    lon := 102.155557
    name_th := "แปลงพันธุ์ไม้"
    stage := .seedling
    soil := .loamy_sandy
    water := .clean_mountain
    personality :=
      { sensitivity_drought := 9
        sensitivity_flood := 5
        critical_asset := .showcase
        notes := "ต้นกล้าอ่อนแอ ห้ามแห้ง ห้ามแฉะเกิน" } }

/-- `PLOT_PROFILES` from `src/lib/plot-mapper.ts`, as an association list in
the source's key-insertion order (`'house'` is the `DEFAULT_PROFILE` object). -/
def PLOT_PROFILES : List (String × PlotProfile) :=
  [("house", DEFAULT_PROFILE),
   ("tamarind", tamarindProfile),
   ("lower", lowerProfile),
   ("pram", pramProfile)]

/-- JS object lookup `PLOT_PROFILES[inputName]` (all stored values are
truthy objects, so the truthiness test is just presence of the key). -/
def plotProfilesGet (s : String) : Option PlotProfile :=
  (PLOT_PROFILES.find? (fun e => e.1 = s)).map (fun e => e.2)

/-- `resolvePlotProfile(inputName)` from `src/lib/plot-mapper.ts`:
(1) exact slug match; (2) keyword/substring match on the lower-cased,
trimmed input against the fixed alias table, in source order;
(3) fallback to `DEFAULT_PROFILE` (the source only `console.warn`s here —
the returned value carries no fallback indicator). -/
def resolvePlotProfile (inputName : String) : PlotProfile :=
  match plotProfilesGet inputName with
  | some p => p
  | none =>
    let normalized := jsTrim (jsToLower inputName)
    if jsIncludes normalized "บ้าน" ∨ jsIncludes normalized "house" ∨
        jsIncludes normalized "ban" then
      DEFAULT_PROFILE
    else if jsIncludes normalized "มะขาม" ∨ jsIncludes normalized "tamarind" ∨
        jsIncludes normalized "makham" then
      tamarindProfile
    else if jsIncludes normalized "ล่าง" ∨ jsIncludes normalized "lower" ∨
        jsIncludes normalized "bottom" ∨ jsIncludes normalized "lang" then
      lowerProfile
    else if jsIncludes normalized "พันธุ์ไม้" ∨ jsIncludes normalized "pram" ∨
        jsIncludes normalized "nursery" then
      pramProfile
    else
      DEFAULT_PROFILE

/-- `FALLBACK_PROFILES` from the database-backed `ProfileManager` module
(safety-net copy of the hardcoded data; only `notes` differ, carrying a
`[FALLBACK]` suffix). -/
def FALLBACK_PROFILES : List (String × PlotProfile) :=
  [("house",
    { DEFAULT_PROFILE with
      personality :=
        { DEFAULT_PROFILE.personality with
          notes := "หน้าร้าน/จุดรับแขก ห้ามโทรมเด็ดขาด (Nursery Zone) [FALLBACK]" } }),
   ("tamarind",
    { tamarindProfile with
      personality :=
        { tamarindProfile.personality with
          notes := "ไข่ในหิน (Crown Jewel). ห้ามขาดน้ำ เกษตรประณีต [FALLBACK]" } }),
   ("lower",
    { lowerProfile with
      personality :=
        { lowerProfile.personality with
          notes := "ปราการด่านสุดท้าย (The Fortress). ถึกทน แต่ระวังน้ำท่วม [FALLBACK]" } }),
   ("pram",
    { pramProfile with
      personality :=
        { pramProfile.personality with
          notes := "ต้นกล้าอ่อนแอ ห้ามแห้ง ห้ามแฉะเกิน [FALLBACK]" } })]

/-- All profiles of the built-in tables (`PLOT_PROFILES` plus the service's
`FALLBACK_PROFILES`). -/
def builtinProfiles : List PlotProfile :=
  PLOT_PROFILES.map (fun e => e.2) ++ FALLBACK_PROFILES.map (fun e => e.2)

-- ===========================================================================
-- Aggregator / priority resolver (src/lib/manifest-generator.ts)
-- ===========================================================================

/-- The chart/metric `mode` of the manifest generator. -/
inductive Mode
  | vpd
  | rain
  | temp
  | dflt
deriving DecidableEq, Repr

/-- The headline produced by `analyzeGlobalContext`, with the template
strings abstracted to one constructor per template: `overview` is the
default `"Orchard Overview"`, `criticalAlert` the `🚨`-prefixed text adopted
from a critical plot's insight, `heavyRain` the flood-alert template over
`maxRain`, `highVPD` the transpiration-alert template over `maxVPD`. -/
inductive GlobalHeadline
  | overview
  | criticalAlert (text : String)
  | heavyRain (mm : ℚ)
  | highVPD (v : ℚ)
deriving DecidableEq, Repr

/-- `SITREP.insight.status` from `src/types/orchard-core.ts`. -/
inductive InsightStatus
  | nominal
  | watch
  | critical
deriving DecidableEq, Repr

/-- `SITREP.insight` from `src/types/orchard-core.ts`. -/
structure Insight where
  status : InsightStatus
  headlines : List String
deriving DecidableEq, Repr

/-- `DailyMetData` from `src/types/orchard-core.ts`; `rainMm` is the optional
field read as `d.rainMm || 0` by consumers. -/
structure DailyMetData where
  date : String
  tempMax : ℚ
  tempMin : ℚ
  humidity : ℚ
  rainProb : ℚ
  rainMm : Option ℚ
  vpd : ℚ
  gdd : ℚ
  eto : ℚ
deriving DecidableEq, Repr

/-- The slice of `SITREP` read by the manifest generator: `plot.id`,
`plot.profile`, `environment.forecast`, and the optional `insight`. -/
structure SITREP where
  plotId : String
  profile : PlotProfile
  forecast : List DailyMetData
  insight : Option Insight
deriving DecidableEq, Repr

/-- `p.insight.headlines[0] || 'CRITICAL ALERT'` (JS treats a missing first
element and the empty string alike as falsy). -/
def criticalHeadlineText : List String → String
  | [] => "CRITICAL ALERT"
  | h :: _ => if h = "" then "CRITICAL ALERT" else h

/-- The result of `analyzeGlobalContext` (`isMobile` is a constant `false`
mock and `bulletPoints` are display strings; both omitted). -/
structure GlobalAnalysis where
  isEmergency : Bool
  isDrought : Bool
  headline : GlobalHeadline
  mode : Mode
deriving DecidableEq, Repr

/-- The accumulator of the `plots.forEach` scan in `analyzeGlobalContext`. -/
structure ScanState where
  maxRain : ℚ
  maxVPD : ℚ
  isEmergency : Bool
  headline : GlobalHeadline
deriving DecidableEq, Repr

/-- The initial scan state of `analyzeGlobalContext` (`maxRain = 0`,
`maxVPD = 0`, `isEmergency = false`, headline `"Orchard Overview"`). -/
def initialScanState : ScanState :=
  { maxRain := 0, maxVPD := 0, isEmergency := false, headline := .overview }

/-- One `forEach` step of `analyzeGlobalContext`: fold the plot's forecast
into the running `maxRain`/`maxVPD` and apply the critical-insight override.
`Math.max(...fc.map(f))` followed by `if (local > acc) acc = local` is the
same as folding `max` over the forecast starting from the accumulator
(an empty forecast gives `-Infinity`, which never wins). -/
def scanPlot (s : ScanState) (p : SITREP) : ScanState :=
  let mr := p.forecast.foldl (fun m d => max m (jsOr0 d.rainMm)) s.maxRain
  let mv := p.forecast.foldl (fun m d => max m d.vpd) s.maxVPD
  match p.insight with
  | some i =>
    if i.status = .critical then
      { maxRain := mr, maxVPD := mv, isEmergency := true
        headline := .criticalAlert (criticalHeadlineText i.headlines) }
    else
      { s with maxRain := mr, maxVPD := mv }
  | none => { s with maxRain := mr, maxVPD := mv }

/-- `analyzeGlobalContext(data)` from `src/lib/manifest-generator.ts`: scan
all plots, then the strict if/else-if chain — critical insight forces
emergency (mode `rain`, headline adopted during the scan); else `maxRain >
50` forces emergency flood alert; else `maxVPD > 2.0` selects the `vpd`
transpiration alert (not an emergency); else the nominal default. -/
def analyzeGlobalContext (plots : List SITREP) : GlobalAnalysis :=
  let s := plots.foldl scanPlot initialScanState
  if s.isEmergency then
    { isEmergency := true, isDrought := decide (s.maxVPD > 1.5)
      headline := s.headline, mode := .rain }
  else if s.maxRain > 50 then
    { isEmergency := true, isDrought := decide (s.maxVPD > 1.5)
      headline := .heavyRain s.maxRain, mode := .rain }
  else if s.maxVPD > 2.0 then
    { isEmergency := false, isDrought := decide (s.maxVPD > 1.5)
      headline := .highVPD s.maxVPD, mode := .vpd }
  else
    { isEmergency := false, isDrought := decide (s.maxVPD > 1.5)
      headline := .overview, mode := .dflt }

/-- `max(0, max over all plots' forecasts of rainMm || 0)`: the final value
of the aggregator's `maxRain`. -/
def globalMaxRain (plots : List SITREP) : ℚ :=
  plots.foldl (fun m p => p.forecast.foldl (fun x d => max x (jsOr0 d.rainMm)) m) 0

/-- The final value of the aggregator's `maxVPD`. -/
def globalMaxVPD (plots : List SITREP) : ℚ :=
  plots.foldl (fun m p => p.forecast.foldl (fun x d => max x d.vpd) m) 0

/-- Whether one plot carries `insight.status === 'critical'`. -/
def isCriticalSitrep (p : SITREP) : Bool :=
  match p.insight with
  | some i => i.status == InsightStatus.critical
  | none => false

/-- Whether some plot carries `insight.status === 'critical'`. -/
def hasCriticalPlot (plots : List SITREP) : Bool :=
  plots.any isCriticalSitrep

/-- The `localMode` selection of `generatePlotComponents(sitrep, globalMode)`
in `src/lib/manifest-generator.ts` (the chart-descriptor construction that
follows it performs no further mode logic): the source lower-cases
`critical_asset` and `stage` and compares against string literals, and tests
`profile.soil.includes('clayey_filled')`. -/
def generatePlotComponentsLocalMode (profile : PlotProfile) (globalMode : Mode) :
    Mode :=
  let criticalAsset := assetStr profile.personality.critical_asset
  let stage := stageStr profile.stage
  if criticalAsset = "durian" ∨ stage = "bloom" ∨ stage = "pollination" then
    .vpd
  else if profile.personality.sensitivity_flood > 7 ∨
      jsIncludes (soilStr profile.soil) "clayey_filled" then
    .rain
  else if criticalAsset = "seedling" then
    .temp
  else
    globalMode

/-- Modelled from the spec's words (§4.4.3), for comparison with
`generatePlotComponentsLocalMode`: `criticalAsset == durian` OR stage in
{bloom, pollination} → vpd; else `floodSensitivity > 7` OR `soilType ==
clayey_filled` → rain; else `criticalAsset == seedling` → temp; else inherit
the global mode. Neither `pollination` nor `seedling` is a constructible
value of the source's `GrowthStage` resp. `critical_asset` enumerations, so
those two tests are identically false in this typed model. -/
def specLocalMode (profile : PlotProfile) (globalMode : Mode) : Mode :=
  if profile.personality.critical_asset = CriticalAsset.durian ∨
      profile.stage = GrowthStage.bloom then
    .vpd
  else if profile.personality.sensitivity_flood > 7 ∨
      profile.soil = SoilType.clayey_filled then
    .rain
  else
    globalMode

-- ===========================================================================
-- Synthesis layer (runSynthesis / loadSystemContext): plot-id resolution,
-- forecast grouping and de-duplication, gap analysis
-- ===========================================================================

/-- `resolvePlotId(input)` from the plot-service module (alias-table
variant): lower-case and trim, then one fixed lookup table; unknown inputs
yield `null` (`none`). -/
def resolvePlotId (input : String) : Option String :=
  let slug := jsTrim (jsToLower input)
  if slug = "suan_ban" then some "suan_ban"
  else if slug = "suan_makham" then some "suan_makham"
  else if slug = "suan_lang" then some "suan_lang"
  else if slug = "plant_shop" then some "plant_shop"
  else if slug = "บ้าน" then some "suan_ban"
  else if slug = "สวนบ้าน" then some "suan_ban"
  else if slug = "มะขาม" then some "suan_makham"
  else if slug = "สวนมะขาม" then some "suan_makham"
  else if slug = "ล่าง" then some "suan_lang"
  else if slug = "สวนล่าง" then some "suan_lang"
  else if slug = "พันธุ์ไม้" then some "plant_shop"
  else if slug = "ปรัมพันธุ์ไม้" then some "plant_shop"
  else if slug = "suan-ban" then some "suan_ban"
  else if slug = "suan-makham" then some "suan_makham"
  else if slug = "suan-lang" then some "suan_lang"
  else if slug = "plant-shop" then some "plant_shop"
  else if slug = "house" then some "suan_ban"
  else if slug = "tamarind" then some "suan_makham"
  else if slug = "lower" then some "suan_lang"
  else if slug = "pram" then some "plant_shop"
  else none

/-- `WeatherForecastDB` row from `src/types/orchard-core.ts` (the fields the
synthesis layer reads; `rain_mm` is optional in some feeds). -/
structure WeatherForecastDB where
  location_id : String
  forecast_date : String
  tc_max : ℚ
  tc_min : ℚ
  rh_percent : ℚ
  rain_prob_percent : ℚ
  rain_mm : Option ℚ
deriving DecidableEq, Repr

/-- `resolvePlotId(row.location_id) || row.location_id`. -/
def rowLocId (row : WeatherForecastDB) : String :=
  (resolvePlotId row.location_id).getD row.location_id

/-- `forecastsByLocation[locId].push(row)` on the JS object, expressed on the
association list: append `row` to the group keyed `locId`, leave other
groups unchanged. -/
def groupAppendTo (locId : String) (row : WeatherForecastDB) :
    (String × List WeatherForecastDB) → (String × List WeatherForecastDB) :=
  fun g => if g.1 = locId then (g.1, g.2 ++ [row]) else g

/-- One `forEach` step of the forecast grouping in `runSynthesis` /
`loadSystemContext`: resolve the location id, drop the row if a plot filter
is active and does not contain it, then append it to its location's group
UNLESS a row with the same `forecast_date` is already present (the source's
`find`-guarded push — the first row encountered for a (plot, date) key is
kept). The association list mirrors a JS object's string-key insertion
order. -/
def groupInsert (requested : List String)
    (acc : List (String × List WeatherForecastDB)) (row : WeatherForecastDB) :
    List (String × List WeatherForecastDB) :=
  let locId := rowLocId row
  if requested ≠ [] ∧ ¬ requested.contains locId then
    acc
  else
    match acc.find? (fun g => g.1 = locId) with
    | some g =>
      if g.2.any (fun f => f.forecast_date = row.forecast_date) then
        acc
      else
        acc.map (groupAppendTo locId row)
    | none => acc ++ [(locId, [row])]

/-- The `forecastsByLocation` object built by `runSynthesis` /
`loadSystemContext`. -/
def groupForecasts (requested : List String) (rows : List WeatherForecastDB) :
    List (String × List WeatherForecastDB) :=
  rows.foldl (groupInsert requested) []

/-- The first row of `rows` that survives the plot filter and has the given
resolved location and date — the row the first-wins de-duplication keeps. -/
def firstRowFor (requested : List String) (rows : List WeatherForecastDB)
    (l d : String) : Option WeatherForecastDB :=
  rows.find? (fun r => (¬ (requested ≠ [] ∧ ¬ requested.contains (rowLocId r))) ∧
    rowLocId r = l ∧ r.forecast_date = d)

/-- Lookup of the de-duplicated record for a (plot, date) key in the grouped
structure. -/
def lookupGroup (gs : List (String × List WeatherForecastDB)) (l d : String) :
    Option WeatherForecastDB :=
  (gs.find? (fun g => g.1 = l)).bind (fun g => g.2.find? (fun f => f.forecast_date = d))

/-- The `${row.location_id}_${row.forecast_date}` key of the Map-based
de-duplication in the insight-synthesis script. -/
def dedupKey (r : DailyForecast) : String :=
  r.location_id ++ "_" ++ r.forecast_date

/-- One `uniqueMap.set(key, row)` step: a JS `Map` keeps the key's original
insertion position and replaces its value, otherwise appends. -/
def uniqueMapInsert (m : List DailyForecast) (r : DailyForecast) :
    List DailyForecast :=
  if m.any (fun x => dedupKey x = dedupKey r) then
    m.map (fun x => if dedupKey x = dedupKey r then r else x)
  else
    m ++ [r]

/-- The de-duplication of the insight-synthesis script (`new Map`; iteration
follows `uniqueMap.values()`): the LAST row encountered for each
location+date key wins. -/
def dedupeLastWins (rows : List DailyForecast) : List DailyForecast :=
  rows.foldl uniqueMapInsert []

/-- The first de-duplicated entry holding the given key. -/
def findByKey (m : List DailyForecast) (k : String) : Option DailyForecast :=
  m.find? (fun x => dedupKey x = k)

/-- The last input row holding the given key. -/
def lastWithKey (rows : List DailyForecast) (k : String) : Option DailyForecast :=
  (rows.filter (fun x => dedupKey x = k)).getLast?

/-- `gapAnalysis.integrity` values. -/
inductive Integrity
  | fresh
  | stale
  | critical
deriving DecidableEq, Repr

/-- The gap-analysis record built by `runSynthesis` / `loadSystemContext`
(`last_update_hours`, wall-clock arithmetic, omitted). -/
structure GapAnalysisOut where
  integrity : Integrity
  missing_plots : List String
  external_search_needed : Bool
  notes : List String
deriving DecidableEq, Repr

/-- Step 4 ("Gap Analysis") of `runSynthesis` / `loadSystemContext`: start
`fresh`; if no forecast rows at all, downgrade to `stale` with
`external_search_needed`; if specific plots were requested, record those
without coverage in `missing_plots` with a note — the integrity field is
NOT touched by the missing-plot branch in these two variants. -/
def runSynthesisGapAnalysis (requested : List String)
    (forecasts : List WeatherForecastDB) : GapAnalysisOut :=
  let foundPlots := (groupForecasts requested forecasts).map (fun g => g.1)
  let g0 : GapAnalysisOut :=
    { integrity := .fresh, missing_plots := [], external_search_needed := false
      notes := [] }
  let g1 :=
    if forecasts.length > 0 then g0
    else
      { g0 with
        integrity := .stale
        notes := g0.notes ++ ["No forecast data found for the requested period."]
        external_search_needed := true }
  if requested.length > 0 then
    let missing := requested.filter (fun p => ¬ foundPlots.contains p)
    if missing.length > 0 then
      { g1 with
        missing_plots := missing
        notes := g1.notes ++
          ["Missing forecast for plots: " ++ String.intercalate ", " missing] }
    else g1
  else g1

-- ===========================================================================
-- Agronomic formula library (src/lib/agronomy.ts)
-- ===========================================================================

/-- `Number(x.toFixed(2))`: rounding to 2 decimal places. -/
noncomputable def round2 (x : ℝ) : ℝ := (round (100 * x) : ℤ) / 100

/-- `calculateVPD(temp, rh)` from `src/lib/agronomy.ts`: Tetens saturated
vapor pressure, actual vapor pressure `svp * rh/100`, difference rounded to
2 decimals. -/
noncomputable def calculateVPD (temp rh : ℝ) : ℝ :=
  let svp := 0.6108 * Real.exp ((17.27 * temp) / (temp + 237.3))
  let avp := svp * (rh / 100)
  round2 (svp - avp)

/-- A JS `number` that may be `NaN`. -/
inductive JsNum
  | nan
  | val (x : ℝ)

/-- The raw (pre-floor, pre-rounding) Hargreaves expression of
`calculateHargreavesETo`, for `tMax ≥ tMin` (where `Math.pow(x, 0.5)` is
`Real.sqrt x`). `getDayOfYear(date)` is abstracted to the integer
`dayOfYear` it produces. -/
noncomputable def rawHargreaves (tMax tMin lat : ℝ) (dayOfYear : ℤ) : ℝ :=
  let dr := 1 + 0.033 * Real.cos ((2 * Real.pi * dayOfYear) / 365)
  let declination := 0.409 * Real.sin ((2 * Real.pi * dayOfYear) / 365 - 1.39)
  let phi := (Real.pi / 180) * lat
  let ws := Real.arccos (-(Real.tan phi) * Real.tan declination)
  let Gsc : ℝ := 0.0820
  let Ra := (24 * 60 / Real.pi) * Gsc * dr *
    ((ws * Real.sin phi * Real.sin declination) +
     (Real.cos phi * Real.cos declination * Real.sin ws))
  let tMean := (tMax + tMin) / 2
  0.0023 * (tMean + 17.8) * Real.sqrt (tMax - tMin) * Ra

/-- `calculateHargreavesETo(tMax, tMin, lat, date)` from
`src/lib/agronomy.ts`. When `tMax < tMin`, the source's
`Math.pow(tMax - tMin, 0.5)` is `NaN`, and `NaN` propagates through the
product, `toFixed`, `Number` and `Math.max(0, ·)` — the function silently
returns `NaN` and throws nothing. Otherwise it returns
`Math.max(0, Number(eto.toFixed(2)))`. (The out-of-domain `Math.acos` `NaN`
for extreme latitudes is not modelled; `Real.arccos` is total.) -/
noncomputable def calculateHargreavesETo (tMax tMin lat : ℝ) (dayOfYear : ℤ) :
    JsNum :=
  if tMax < tMin then
    JsNum.nan
  else
    JsNum.val (max 0 (round2 (rawHargreaves tMax tMin lat dayOfYear)))

-- ===========================================================================
-- Concrete records used by witnesses and counterexamples
-- ===========================================================================

/-- A SITREP whose forecast contains an 80 mm rain day and whose insight is
nominal. -/
def floodSitrep : SITREP :=
  { plotId := "suan_lang"
    profile := lowerProfile
    forecast := [{ date := "2026-01-26", tempMax := 30, tempMin := 24
                   humidity := 80, rainProb := 90, rainMm := some 80
                   vpd := 1, gdd := 17, eto := 3 }]
    insight := some { status := .nominal, headlines := [] } }

/-- A SITREP carrying a critical insight with one headline. -/
def criticalSitrep : SITREP :=
  { plotId := "suan_makham"
    profile := tamarindProfile
    forecast := []
    insight := some { status := .critical, headlines := ["Pump broken"] } }

/-- First of two raw forecast rows sharing the (suan_ban, 2026-01-26) key. -/
def forecastRowFirst : WeatherForecastDB :=
  { location_id := "suan_ban", forecast_date := "2026-01-26", tc_max := 33
    tc_min := 24, rh_percent := 60, rain_prob_percent := 10, rain_mm := some 1 }

/-- Second row with the same (plot, date) key but different readings. -/
def forecastRowSecond : WeatherForecastDB :=
  { location_id := "suan_ban", forecast_date := "2026-01-26", tc_max := 35
    tc_min := 25, rh_percent := 50, rain_prob_percent := 20, rain_mm := some 2 }

/-- First of two Phase-1 forecast rows sharing the (tm1, 2026-01-26) key. -/
def dupDayOne : DailyForecast :=
  { forecast_date := "2026-01-26", location_id := "tm1", swdown := 500
    tc_max := 31, tc_min := 24, rh_percent := 65, rain_mm := 1 }

/-- Second Phase-1 row with the same key but different readings. -/
def dupDayTwo : DailyForecast :=
  { forecast_date := "2026-01-26", location_id := "tm1", swdown := 650
    tc_max := 33, tc_min := 25, rh_percent := 55, rain_mm := 0 }

-- ===========================================================================
-- Helper lemmas
-- ===========================================================================

lemma scanPlot_maxRain (s : ScanState) (p : SITREP) :
    (scanPlot s p).maxRain =
      p.forecast.foldl (fun m d => max m (jsOr0 d.rainMm)) s.maxRain := by
  unfold scanPlot
  cases hI : p.insight with
  | none => rfl
  | some i =>
    dsimp only
    split_ifs <;> rfl

lemma scanPlot_maxVPD (s : ScanState) (p : SITREP) :
    (scanPlot s p).maxVPD =
      p.forecast.foldl (fun m d => max m d.vpd) s.maxVPD := by
  unfold scanPlot
  cases hI : p.insight with
  | none => rfl
  | some i =>
    dsimp only
    split_ifs <;> rfl

lemma scanPlot_isEmergency (s : ScanState) (p : SITREP) :
    (scanPlot s p).isEmergency = (s.isEmergency || isCriticalSitrep p) := by
  unfold scanPlot isCriticalSitrep
  cases hI : p.insight with
  | none => simp
  | some i =>
    dsimp only
    split_ifs with h
    · simp [h]
    · simp [beq_iff_eq, h]

lemma scanPlot_headline_critical (s : ScanState) (p : SITREP)
    (h : isCriticalSitrep p = true) :
    ∃ i, p.insight = some i ∧ i.status = InsightStatus.critical ∧
      (scanPlot s p).headline =
        GlobalHeadline.criticalAlert (criticalHeadlineText i.headlines) := by
  unfold isCriticalSitrep at h
  unfold scanPlot
  cases hI : p.insight with
  | none => rw [hI] at h; exact absurd h (by simp)
  | some i =>
    rw [hI] at h
    have hs : i.status = InsightStatus.critical := by simpa [beq_iff_eq] using h
    refine ⟨i, rfl, hs, ?_⟩
    dsimp only
    rw [if_pos hs]

lemma scanPlot_headline_noncritical (s : ScanState) (p : SITREP)
    (h : isCriticalSitrep p = false) :
    (scanPlot s p).headline = s.headline := by
  unfold isCriticalSitrep at h
  unfold scanPlot
  cases hI : p.insight with
  | none => rfl
  | some i =>
    rw [hI] at h
    have hs : ¬ i.status = InsightStatus.critical := by simpa [beq_iff_eq] using h
    dsimp only
    rw [if_neg hs]

lemma foldl_scanPlot_maxRain (plots : List SITREP) (s : ScanState) :
    (plots.foldl scanPlot s).maxRain =
      plots.foldl
        (fun m p => p.forecast.foldl (fun x d => max x (jsOr0 d.rainMm)) m)
        s.maxRain := by
  induction plots generalizing s with
  | nil => rfl
  | cons p ps ih =>
    simp only [List.foldl_cons]
    rw [ih, scanPlot_maxRain]

lemma foldl_scanPlot_maxVPD (plots : List SITREP) (s : ScanState) :
    (plots.foldl scanPlot s).maxVPD =
      plots.foldl (fun m p => p.forecast.foldl (fun x d => max x d.vpd) m)
        s.maxVPD := by
  induction plots generalizing s with
  | nil => rfl
  | cons p ps ih =>
    simp only [List.foldl_cons]
    rw [ih, scanPlot_maxVPD]

lemma foldl_scanPlot_isEmergency (plots : List SITREP) (s : ScanState) :
    (plots.foldl scanPlot s).isEmergency =
      (s.isEmergency || hasCriticalPlot plots) := by
  induction plots generalizing s with
  | nil => simp [hasCriticalPlot]
  | cons p ps ih =>
    simp only [List.foldl_cons]
    rw [ih, scanPlot_isEmergency]
    simp [hasCriticalPlot, Bool.or_assoc]

lemma foldl_scanPlot_headline_of_no_critical (plots : List SITREP) :
    ∀ s : ScanState, hasCriticalPlot plots = false →
      (plots.foldl scanPlot s).headline = s.headline := by
  induction plots with
  | nil => intro s _; rfl
  | cons p ps ih =>
    intro s h
    simp only [hasCriticalPlot, List.any_cons, Bool.or_eq_false_iff] at h
    simp only [List.foldl_cons]
    rw [ih _ h.2]
    exact scanPlot_headline_noncritical s p h.1

lemma foldl_scanPlot_headline_of_critical (plots : List SITREP) :
    ∀ s : ScanState, hasCriticalPlot plots = true →
      ∃ p ∈ plots, ∃ i, p.insight = some i ∧
        i.status = InsightStatus.critical ∧
        (plots.foldl scanPlot s).headline =
          GlobalHeadline.criticalAlert (criticalHeadlineText i.headlines) := by
  induction plots with
  | nil => intro s h; simp [hasCriticalPlot] at h
  | cons p ps ih =>
    intro s h
    by_cases hps : hasCriticalPlot ps = true
    · obtain ⟨q, hq, i, hqi, hst, hh⟩ := ih (scanPlot s p) hps
      exact ⟨q, List.mem_cons_of_mem _ hq, i, hqi, hst,
        by simpa [List.foldl_cons] using hh⟩
    · have hps' : hasCriticalPlot ps = false := by simpa using hps
      have hp : isCriticalSitrep p = true := by
        simp only [hasCriticalPlot, List.any_cons] at h
        rcases (Bool.or_eq_true _ _).mp h with h1 | h1
        · exact h1
        · exact absurd h1 (by simpa [hasCriticalPlot] using hps')
      obtain ⟨i, hi, hst, hh⟩ := scanPlot_headline_critical s p hp
      refine ⟨p, List.mem_cons_self _ _, i, hi, hst, ?_⟩
      simp only [List.foldl_cons]
      rw [foldl_scanPlot_headline_of_no_critical ps _ hps', hh]

lemma asset_eq_durian_iff (a : CriticalAsset) :
    assetStr a = "durian" ↔ a = CriticalAsset.durian := by
  cases a <;> decide

lemma asset_ne_seedling (a : CriticalAsset) : assetStr a ≠ "seedling" := by
  cases a <;> decide

lemma stage_eq_bloom_iff (s : GrowthStage) :
    stageStr s = "bloom" ↔ s = GrowthStage.bloom := by
  cases s <;> decide

lemma stage_ne_pollination (s : GrowthStage) : stageStr s ≠ "pollination" := by
  cases s <;> decide

lemma soil_includes_clayey_filled_iff (s : SoilType) :
    jsIncludes (soilStr s) "clayey_filled" = true ↔ s = SoilType.clayey_filled := by
  cases s <;> decide

-- ===========================================================================
-- Theorems
-- ===========================================================================

/-- C2: the low-humidity condition of the context-aware irrigation analyzer
fires below threshold 60 for sandy soil (50 otherwise), its severity
is `critical` exactly when the soil is sandy AND humidity < 50 (`warning` in
every other firing case), and on a day that also satisfies the heat-stress
condition the analyzer still returns only the low-humidity advisory — the
heat-stress condition is never reached once the first condition matched. -/
theorem analyzeIrrigation_low_humidity_first_match
    (day : DailyForecast) (context : Option PlotProfile)
    (hfire : day.rh_percent < (if irrigationIsSandy context then 60 else 50)) :
    ConditionsCtx.analyzeIrrigation day context =
      some { location_id := day.location_id
             target_date := day.forecast_date
             category := Category.irrigation
             status_level :=
               if irrigationIsSandy context ∧ day.rh_percent < 50 then
                 Severity.critical
               else Severity.warning
             condition := "High Transpiration" } ∧
    (∀ a, ConditionsCtx.analyzeIrrigation day context = some a →
      (a.status_level = Severity.critical ↔
        (irrigationIsSandy context = true ∧ day.rh_percent < 50)) ∧
      a.condition = "High Transpiration" ∧ a.condition ≠ "Heat Stress") := by
  have key : ConditionsCtx.analyzeIrrigation day context =
      some { location_id := day.location_id
             target_date := day.forecast_date
             category := Category.irrigation
             status_level :=
               if irrigationIsSandy context ∧ day.rh_percent < 50 then
                 Severity.critical
               else Severity.warning
             condition := "High Transpiration" } := by
    unfold ConditionsCtx.analyzeIrrigation
    rw [if_pos hfire]
  refine ⟨key, ?_⟩
  intro a ha
  rw [key, Option.some.injEq] at ha
  subst ha
  constructor
  · constructor
    · intro hcrit
      by_contra hc
      rw [if_neg] at hcrit
      · exact Severity.noConfusion hcrit
      · exact fun h => hc ⟨h.1, h.2⟩
    · intro hc
      rw [if_pos]
      exact ⟨hc.1, hc.2⟩
  · exact ⟨rfl, by show "High Transpiration" ≠ "Heat Stress"; decide⟩

/-- C2 witness: a sandy-soil plot (tamarind) on a day with `rh = 45`,
`tempMax = 36`, `swdown = 700` (both the low-humidity and the heat-stress
conditions hold) yields exactly the critical low-humidity advisory. -/
theorem analyzeIrrigation_low_humidity_first_match_witness :
    ConditionsCtx.analyzeIrrigation
      { forecast_date := "2026-01-26", location_id := "suan_makham"
        swdown := 700, tc_max := 36, tc_min := 25, rh_percent := 45
        rain_mm := 0 }
      (some tamarindProfile) =
      some { location_id := "suan_makham", target_date := "2026-01-26"
             category := Category.irrigation, status_level := Severity.critical
             condition := "High Transpiration" } := by
  have h := (analyzeIrrigation_low_humidity_first_match
    { forecast_date := "2026-01-26", location_id := "suan_makham"
      swdown := 700, tc_max := 36, tc_min := 25, rh_percent := 45
      rain_mm := 0 }
    (some tamarindProfile) (by decide)).1
  norm_num [irrigationIsSandy, tamarindProfile] at h
  exact h

/-- C4: the per-plot mode override of `generatePlotComponents` implements
exactly the specified priority chain (durian asset or bloom/pollination
stage → vpd; else flood sensitivity > 7 or clayey_filled soil → rain; else
seedling asset → temp; else the inherited global mode); on the source's
typed profiles `includes('clayey_filled')` coincides with equality and the
`pollination`/`seedling` tests are unsatisfiable. -/
theorem generatePlotComponentsLocalMode_eq_spec (profile : PlotProfile)
    (g : Mode) :
    generatePlotComponentsLocalMode profile g = specLocalMode profile g := by
  unfold generatePlotComponentsLocalMode specLocalMode
  simp only [asset_eq_durian_iff, stage_eq_bloom_iff,
    stage_ne_pollination profile.stage, soil_includes_clayey_filled_iff,
    asset_ne_seedling profile.personality.critical_asset, or_false, if_false]

/-- C6 counterexample: on a hot dry day (red-mite condition) and a zero-rain
day (thrips condition), both pest analyzer variants return advisories whose
category literal is `"disease"`, not `"pest"`. -/
theorem analyzePest_category_counterexample :
    ((ConditionsCtx.analyzePest
        { forecast_date := "2026-01-26", location_id := "suan_makham"
          swdown := 700, tc_max := 34, tc_min := 25, rh_percent := 40
          rain_mm := 3 } none).map (fun a => categoryStr a.category) =
      some "disease") ∧
    ((Conditions.analyzePest
        { forecast_date := "2026-01-27", location_id := "suan_makham"
          swdown := 400, tc_max := 30, tc_min := 24, rh_percent := 70
          rain_mm := 0 }).map (fun a => categoryStr a.category) =
      some "disease") ∧
    "disease" ≠ "pest" := by
  decide

/-- C6 amended: every advisory returned by either pest analyzer variant
carries category `'disease'` (the `WeatherInsight` category enumeration is
`irrigation | disease | physiology` and has no `'pest'` value). -/
theorem analyzePest_category_disease (day : DailyForecast)
    (context : Option PlotProfile) (a : WeatherInsight)
    (h : ConditionsCtx.analyzePest day context = some a ∨
      Conditions.analyzePest day = some a) :
    categoryStr a.category = "disease" := by
  rcases h with h | h
  · unfold ConditionsCtx.analyzePest at h
    split_ifs at h <;>
      first
        | exact Option.noConfusion h
        | (rw [Option.some.injEq] at h; subst h; rfl)
  · unfold Conditions.analyzePest at h
    split_ifs at h <;>
      first
        | exact Option.noConfusion h
        | (rw [Option.some.injEq] at h; subst h; rfl)

/-- C6 amended witness: the red-mite advisory of the concrete hot dry day
carries category `"disease"`. -/
theorem analyzePest_category_disease_witness :
    categoryStr (WeatherInsight.mk "suan_makham" "2026-01-26"
      Category.disease Severity.warning "Red Mite Boom").category =
      "disease" := by
  exact analyzePest_category_disease
    { forecast_date := "2026-01-26", location_id := "suan_makham"
      swdown := 700, tc_max := 34, tc_min := 25, rh_percent := 40
      rain_mm := 3 } none _ (Or.inl (by decide))

/-- C9 counterexample: resolving a completely unknown identifier returns a
value indistinguishable from resolving the intentional `"house"` slug — the
source's return type is a bare `PlotProfile`; the fallback is recorded only
by a `console.warn`, there is no `resolved = false` return-side signal. -/
theorem resolvePlotProfile_no_fallback_signal :
    resolvePlotProfile "totally-unknown-slug" = resolvePlotProfile "house" := rfl

/-- C9 amended: the hyphenated alias `"suan-makham"` and the Thai keyword
`"มะขาม"` both resolve to the tamarind profile, and any input that misses
every slug and every alias keyword resolves to the default (house) profile;
the fallback is observable only via a log line, not in the return value. -/
theorem resolvePlotProfile_aliases_and_fallback :
    resolvePlotProfile "suan-makham" = tamarindProfile ∧
    resolvePlotProfile "มะขาม" = tamarindProfile ∧
    ∀ s : String, plotProfilesGet s = none →
      (∀ pat ∈ ["บ้าน", "house", "ban", "มะขาม", "tamarind", "makham",
          "ล่าง", "lower", "bottom", "lang", "พันธุ์ไม้", "pram", "nursery"],
        jsIncludes (jsTrim (jsToLower s)) pat = false) →
      resolvePlotProfile s = DEFAULT_PROFILE := by
  refine ⟨rfl, rfl, ?_⟩
  intro s h1 h2
  have k1 := h2 "บ้าน" (by simp)
  have k2 := h2 "house" (by simp)
  have k3 := h2 "ban" (by simp)
  have k4 := h2 "มะขาม" (by simp)
  have k5 := h2 "tamarind" (by simp)
  have k6 := h2 "makham" (by simp)
  have k7 := h2 "ล่าง" (by simp)
  have k8 := h2 "lower" (by simp)
  have k9 := h2 "bottom" (by simp)
  have k10 := h2 "lang" (by simp)
  have k11 := h2 "พันธุ์ไม้" (by simp)
  have k12 := h2 "pram" (by simp)
  have k13 := h2 "nursery" (by simp)
  unfold resolvePlotProfile
  rw [h1]
  simp only [k1, k2, k3, k4, k5, k6, k7, k8, k9, k10, k11, k12, k13,
    Bool.false_eq_true, or_self, if_false]

/-- C9 amended witness: the aliases resolve to tamarind and the unknown slug
`"totally-unknown-slug"` resolves to the default profile. -/
theorem resolvePlotProfile_aliases_and_fallback_witness :
    resolvePlotProfile "totally-unknown-slug" = DEFAULT_PROFILE := by
  exact resolvePlotProfile_aliases_and_fallback.2.2 "totally-unknown-slug"
    (by decide) (by decide)

/-- C10: for every profile of the built-in tables the `critical_asset` value
is never `'seedling'` (the `PlotPersonality` type only admits durian,
mangosteen, showcase and mixed), so the `temp` branch of the per-plot mode
override is unreachable: the resolved local mode is always `vpd`, `rain` or
the inherited global mode; moreover `analyzeGlobalContext` itself never
produces the `temp` mode. -/
theorem localMode_temp_unreachable :
    (∀ p ∈ builtinProfiles, assetStr p.personality.critical_asset ≠ "seedling" ∧
      ∀ g : Mode,
        (generatePlotComponentsLocalMode p g = Mode.vpd ∨
          generatePlotComponentsLocalMode p g = Mode.rain ∨
          generatePlotComponentsLocalMode p g = g) ∧
        (g ≠ Mode.temp → generatePlotComponentsLocalMode p g ≠ Mode.temp)) ∧
    (∀ plots : List SITREP, (analyzeGlobalContext plots).mode ≠ Mode.temp) := by
  constructor
  · intro p _hp
    refine ⟨asset_ne_seedling _, ?_⟩
    intro g
    unfold generatePlotComponentsLocalMode
    dsimp only
    constructor
    · split_ifs with h1 h2 h3
      · exact Or.inl rfl
      · exact Or.inr (Or.inl rfl)
      · exact absurd h3 (asset_ne_seedling _)
      · exact Or.inr (Or.inr rfl)
    · intro hg
      split_ifs with h1 h2 h3
      · exact fun h => Mode.noConfusion h
      · exact fun h => Mode.noConfusion h
      · exact absurd h3 (asset_ne_seedling _)
      · exact hg
  · intro plots
    unfold analyzeGlobalContext
    dsimp only
    split_ifs <;> exact fun h => Mode.noConfusion h

/-- C10 witness: the tamarind profile with inherited global mode `default`
does not resolve to `temp`, and the empty system's global mode is not
`temp`. -/
theorem localMode_temp_unreachable_witness :
    generatePlotComponentsLocalMode tamarindProfile Mode.dflt ≠ Mode.temp ∧
    (analyzeGlobalContext []).mode ≠ Mode.temp := by
  refine ⟨?_, localMode_temp_unreachable.2 []⟩
  exact ((localMode_temp_unreachable.1 tamarindProfile
    (by simp [builtinProfiles, PLOT_PROFILES, FALLBACK_PROFILES])).2 Mode.dflt).2
    (by decide)

/-- C1: `analyzeGlobalContext` follows the strict first-match-wins priority
chain — a critical plot insight forces `emergency = true` with the headline
adopted from that plot's insight headlines (taking precedence over every
later condition); else `maxRainMm > 50` forces emergency flood-alert mode
`rain`; else `maxVPD > 2.0` selects mode `vpd` without emergency; else the
`default` mode with the nominal headline. The result carries one single
`mode` field, so at most one mode is active system-wide. -/
theorem analyzeGlobalContext_priority_chain (plots : List SITREP) :
    (hasCriticalPlot plots = true →
      (analyzeGlobalContext plots).isEmergency = true ∧
      (analyzeGlobalContext plots).mode = Mode.rain ∧
      ∃ p ∈ plots, ∃ i, p.insight = some i ∧
        i.status = InsightStatus.critical ∧
        (analyzeGlobalContext plots).headline =
          GlobalHeadline.criticalAlert (criticalHeadlineText i.headlines)) ∧
    (hasCriticalPlot plots = false → globalMaxRain plots > 50 →
      (analyzeGlobalContext plots).isEmergency = true ∧
      (analyzeGlobalContext plots).mode = Mode.rain ∧
      (analyzeGlobalContext plots).headline =
        GlobalHeadline.heavyRain (globalMaxRain plots)) ∧
    (hasCriticalPlot plots = false → globalMaxRain plots ≤ 50 →
      globalMaxVPD plots > 2 →
      (analyzeGlobalContext plots).isEmergency = false ∧
      (analyzeGlobalContext plots).mode = Mode.vpd ∧
      (analyzeGlobalContext plots).headline =
        GlobalHeadline.highVPD (globalMaxVPD plots)) ∧
    (hasCriticalPlot plots = false → globalMaxRain plots ≤ 50 →
      globalMaxVPD plots ≤ 2 →
      (analyzeGlobalContext plots).isEmergency = false ∧
      (analyzeGlobalContext plots).mode = Mode.dflt ∧
      (analyzeGlobalContext plots).headline = GlobalHeadline.overview) := by
  have hE := foldl_scanPlot_isEmergency plots initialScanState
  have hR := foldl_scanPlot_maxRain plots initialScanState
  have hV := foldl_scanPlot_maxVPD plots initialScanState
  have hR' : (plots.foldl scanPlot initialScanState).maxRain =
      globalMaxRain plots := hR
  have hV' : (plots.foldl scanPlot initialScanState).maxVPD =
      globalMaxVPD plots := hV
  have h2 : (2.0 : ℚ) = 2 := by norm_num
  refine ⟨?_, ?_, ?_, ?_⟩
  · intro h
    have hcond : (plots.foldl scanPlot initialScanState).isEmergency = true := by
      rw [hE, h]; rfl
    obtain ⟨p, hp, i, hi, hst, hh⟩ :=
      foldl_scanPlot_headline_of_critical plots initialScanState h
    refine ⟨?_, ?_, p, hp, i, hi, hst, ?_⟩
    · unfold analyzeGlobalContext; dsimp only; rw [if_pos hcond]
    · unfold analyzeGlobalContext; dsimp only; rw [if_pos hcond]
    · unfold analyzeGlobalContext; dsimp only; rw [if_pos hcond]; exact hh
  · intro h hrain
    have hcond : ¬ (plots.foldl scanPlot initialScanState).isEmergency = true := by
      rw [hE, h]; simp [initialScanState]
    have hrcond : (plots.foldl scanPlot initialScanState).maxRain > 50 := by
      rw [hR']; exact hrain
    refine ⟨?_, ?_, ?_⟩ <;>
      (unfold analyzeGlobalContext; dsimp only;
        rw [if_neg hcond, if_pos hrcond])
    rw [hR']
  · intro h hrain hvpd
    have hcond : ¬ (plots.foldl scanPlot initialScanState).isEmergency = true := by
      rw [hE, h]; simp [initialScanState]
    have hrcond : ¬ (plots.foldl scanPlot initialScanState).maxRain > 50 := by
      rw [hR']; exact not_lt.mpr hrain
    have hvcond : (plots.foldl scanPlot initialScanState).maxVPD > 2.0 := by
      rw [hV', h2]; exact hvpd
    refine ⟨?_, ?_, ?_⟩ <;>
      (unfold analyzeGlobalContext; dsimp only;
        rw [if_neg hcond, if_neg hrcond, if_pos hvcond])
    rw [hV']
  · intro h hrain hvpd
    have hcond : ¬ (plots.foldl scanPlot initialScanState).isEmergency = true := by
      rw [hE, h]; simp [initialScanState]
    have hrcond : ¬ (plots.foldl scanPlot initialScanState).maxRain > 50 := by
      rw [hR']; exact not_lt.mpr hrain
    have hvcond : ¬ (plots.foldl scanPlot initialScanState).maxVPD > 2.0 := by
      rw [hV', h2]; exact not_lt.mpr hvpd
    refine ⟨?_, ?_, ?_⟩ <;>
      (unfold analyzeGlobalContext; dsimp only;
        rw [if_neg hcond, if_neg hrcond, if_neg hvcond])

/-- C1 witness: with one plot forecasting 80 mm of rain and another plot
carrying a critical insight, the critical plot's headline wins and the
system is in emergency. -/
theorem analyzeGlobalContext_priority_chain_witness :
    (analyzeGlobalContext [floodSitrep, criticalSitrep]).isEmergency = true ∧
    (analyzeGlobalContext [floodSitrep, criticalSitrep]).mode = Mode.rain ∧
    ∃ p ∈ [floodSitrep, criticalSitrep], ∃ i, p.insight = some i ∧
      i.status = InsightStatus.critical ∧
      (analyzeGlobalContext [floodSitrep, criticalSitrep]).headline =
        GlobalHeadline.criticalAlert (criticalHeadlineText i.headlines) :=
  (analyzeGlobalContext_priority_chain [floodSitrep, criticalSitrep]).1
    (by decide)

-- ===========================================================================
-- De-duplication lemmas (C5)
-- ===========================================================================

lemma dedupKey_replace (r x : DailyForecast) :
    dedupKey (if dedupKey x = dedupKey r then r else x) = dedupKey x := by
  split_ifs with h
  · exact h.symm
  · rfl

lemma findByKey_uniqueMapInsert (m : List DailyForecast) (r : DailyForecast)
    (k : String) :
    findByKey (uniqueMapInsert m r) k =
      if dedupKey r = k then some r else findByKey m k := by
  unfold uniqueMapInsert findByKey
  by_cases hmem : m.any (fun x => dedupKey x = dedupKey r) = true
  · rw [if_pos hmem, List.find?_map]
    have hfun : ((fun x => decide (dedupKey x = k)) ∘
        (fun x => if dedupKey x = dedupKey r then r else x)) =
        (fun x => decide (dedupKey x = k)) := by
      funext x
      simp only [Function.comp_apply, dedupKey_replace]
    rw [hfun]
    by_cases hk : dedupKey r = k
    · rw [if_pos hk]
      obtain ⟨x, hx, hpx⟩ := List.any_eq_true.mp hmem
      have hsome : (m.find? (fun x => decide (dedupKey x = k))).isSome = true := by
        rw [List.find?_isSome]
        refine ⟨x, hx, ?_⟩
        simp only [decide_eq_true_eq] at hpx ⊢
        rw [hpx, hk]
      obtain ⟨y, hy⟩ := Option.isSome_iff_exists.mp hsome
      have hky : dedupKey y = k := by simpa using List.find?_some hy
      rw [hy]
      show some (if dedupKey y = dedupKey r then r else y) = some r
      rw [if_pos (by rw [hky, hk])]
    · rw [if_neg hk]
      cases hfind : m.find? (fun x => decide (dedupKey x = k)) with
      | none => simp
      | some y =>
        have hky : dedupKey y = k := by simpa using List.find?_some hfind
        have hne : ¬ dedupKey y = dedupKey r := by
          intro hc
          exact hk (by rw [← hc, hky])
        simp [hne]
  · have hmem' : m.any (fun x => dedupKey x = dedupKey r) = false := by
      simpa using hmem
    rw [if_neg hmem, List.find?_append]
    by_cases hk : dedupKey r = k
    · rw [if_pos hk]
      have h1 : m.find? (fun x => decide (dedupKey x = k)) = none := by
        rw [List.find?_eq_none]
        intro x hx
        simp only [decide_eq_true_eq]
        intro hc
        exact (List.any_eq_false.mp hmem') x hx (by simp [hc, hk])
      rw [h1]
      simp [hk]
    · rw [if_neg hk]
      have h2 : List.find? (fun x => decide (dedupKey x = k)) [r] = none := by
        simp [hk]
      rw [h2, Option.or_none]

lemma findByKey_dedupeLastWins (rows : List DailyForecast) (k : String) :
    findByKey (dedupeLastWins rows) k = lastWithKey rows k := by
  induction rows using List.reverseRecOn with
  | nil => rfl
  | append_singleton rows r ih =>
    unfold dedupeLastWins at ih ⊢
    rw [List.foldl_append]
    simp only [List.foldl_cons, List.foldl_nil]
    rw [findByKey_uniqueMapInsert]
    unfold lastWithKey at ih ⊢
    rw [List.filter_append]
    by_cases hk : dedupKey r = k
    · rw [if_pos hk]
      have hr : List.filter (fun x => dedupKey x = k) [r] = [r] := by
        simp [hk]
      rw [hr, List.getLast?_concat]
    · rw [if_neg hk]
      have hr : List.filter (fun x => dedupKey x = k) [r] = [] := by
        simp [hk]
      rw [hr, List.append_nil]
      exact ih

lemma keys_map_uniqueMapInsert (m : List DailyForecast) (r : DailyForecast) :
    (uniqueMapInsert m r).map dedupKey =
      if m.any (fun x => dedupKey x = dedupKey r) then m.map dedupKey
      else m.map dedupKey ++ [dedupKey r] := by
  unfold uniqueMapInsert
  by_cases hmem : m.any (fun x => dedupKey x = dedupKey r) = true
  · rw [if_pos hmem, if_pos hmem, List.map_map]
    exact List.map_congr_left (fun x _ => dedupKey_replace r x)
  · rw [if_neg hmem, if_neg hmem, List.map_append]
    rfl

lemma keys_nodup_uniqueMapInsert (m : List DailyForecast) (r : DailyForecast)
    (h : (m.map dedupKey).Nodup) :
    ((uniqueMapInsert m r).map dedupKey).Nodup := by
  rw [keys_map_uniqueMapInsert]
  by_cases hmem : m.any (fun x => dedupKey x = dedupKey r) = true
  · rw [if_pos hmem]; exact h
  · have hmem' : m.any (fun x => dedupKey x = dedupKey r) = false := by
      simpa using hmem
    rw [if_neg hmem]
    rw [List.nodup_append]
    refine ⟨h, List.nodup_singleton _, ?_⟩
    intro a ha hb
    simp only [List.mem_singleton] at hb
    subst hb
    obtain ⟨x, hx, hxk⟩ := List.mem_map.mp ha
    exact (List.any_eq_false.mp hmem') x hx (by simp [hxk])

lemma keys_nodup_dedupeLastWins (rows : List DailyForecast) :
    ((dedupeLastWins rows).map dedupKey).Nodup := by
  induction rows using List.reverseRecOn with
  | nil => simp [dedupeLastWins]
  | append_singleton rows r ih =>
    unfold dedupeLastWins at ih ⊢
    rw [List.foldl_append]
    simp only [List.foldl_cons, List.foldl_nil]
    exact keys_nodup_uniqueMapInsert _ _ ih

-- ===========================================================================
-- Grouping lemmas (first-wins de-duplication of runSynthesis)
-- ===========================================================================

lemma groupAppendTo_fst (locId : String) (row : WeatherForecastDB)
    (g : String × List WeatherForecastDB) :
    (groupAppendTo locId row g).1 = g.1 := by
  unfold groupAppendTo
  split_ifs <;> rfl

lemma find?_map_groupAppendTo (locId : String) (row : WeatherForecastDB)
    (acc : List (String × List WeatherForecastDB)) (l : String) :
    (acc.map (groupAppendTo locId row)).find? (fun g => g.1 = l) =
      (acc.find? (fun g => g.1 = l)).map (groupAppendTo locId row) := by
  rw [List.find?_map]
  have hfun : ((fun (g : String × List WeatherForecastDB) => decide (g.1 = l)) ∘
      groupAppendTo locId row) =
      (fun (g : String × List WeatherForecastDB) => decide (g.1 = l)) := by
    funext g
    simp only [Function.comp_apply, groupAppendTo_fst]
  rw [hfun]

lemma lookupGroup_groupInsert (requested : List String)
    (acc : List (String × List WeatherForecastDB)) (row : WeatherForecastDB)
    (l d : String) :
    lookupGroup (groupInsert requested acc row) l d =
      if (¬ (requested ≠ [] ∧ ¬ requested.contains (rowLocId row) = true)) ∧
          rowLocId row = l ∧ row.forecast_date = d ∧
          lookupGroup acc l d = none
      then some row else lookupGroup acc l d := by
  unfold groupInsert
  dsimp only
  by_cases hpass : requested ≠ [] ∧ ¬ requested.contains (rowLocId row) = true
  · rw [if_pos hpass, if_neg (fun hcon => hcon.1 hpass)]
  · rw [if_neg hpass]
    cases hfind : acc.find? (fun g => g.1 = rowLocId row) with
    | some g =>
      have hgkey : g.1 = rowLocId row := by simpa using List.find?_some hfind
      dsimp only
      by_cases hdup :
          g.2.any (fun f => f.forecast_date = row.forecast_date) = true
      · rw [if_pos hdup, if_neg]
        rintro ⟨-, hl, hd, hnone⟩
        subst hl; subst hd
        have hacc : lookupGroup acc (rowLocId row) row.forecast_date =
            g.2.find? (fun f => f.forecast_date = row.forecast_date) := by
          unfold lookupGroup
          rw [hfind]
          rfl
        rw [hacc] at hnone
        obtain ⟨x, hx, hpx⟩ := List.any_eq_true.mp hdup
        rw [List.find?_eq_none] at hnone
        exact hnone x hx hpx
      · rw [if_neg hdup]
        by_cases hl : rowLocId row = l
        · subst hl
          have hacc : lookupGroup acc (rowLocId row) d =
              g.2.find? (fun f => f.forecast_date = d) := by
            unfold lookupGroup
            rw [hfind]
            rfl
          have hlhs :
              lookupGroup (acc.map (groupAppendTo (rowLocId row) row))
                (rowLocId row) d =
              (g.2 ++ [row]).find? (fun f => f.forecast_date = d) := by
            unfold lookupGroup
            rw [find?_map_groupAppendTo, hfind]
            show ((groupAppendTo (rowLocId row) row g).2.find?
              (fun f => f.forecast_date = d)) = _
            unfold groupAppendTo
            rw [if_pos hgkey]
          rw [hlhs, List.find?_append]
          by_cases hd : row.forecast_date = d
          · subst hd
            have h1 : g.2.find?
                (fun f => f.forecast_date = row.forecast_date) = none := by
              have hdup2 : g.2.any
                  (fun f => f.forecast_date = row.forecast_date) = false := by
                simpa using hdup
              rw [List.find?_eq_none]
              intro x hx hpx
              exact (List.any_eq_false.mp hdup2) x hx hpx
            rw [h1, if_pos ⟨hpass, rfl, rfl, by rw [hacc, h1]⟩]
            show (List.find? (fun f => f.forecast_date = row.forecast_date)
              [row]) = some row
            rw [List.find?_cons_of_pos _ (by simp)]
          · have h2 : List.find? (fun f => f.forecast_date = d) [row] =
                none := by
              rw [List.find?_cons_of_neg _ (by simpa using hd)]
              rfl
            rw [h2, Option.or_none, if_neg (fun hcon => hd hcon.2.2.1), hacc]
        · have hlhs :
              lookupGroup (acc.map (groupAppendTo (rowLocId row) row)) l d =
              lookupGroup acc l d := by
            unfold lookupGroup
            rw [find?_map_groupAppendTo]
            cases hf2 : acc.find? (fun g => g.1 = l) with
            | none => rfl
            | some g2 =>
              have hg2key : g2.1 = l := by simpa using List.find?_some hf2
              show ((groupAppendTo (rowLocId row) row g2).2.find?
                (fun f => f.forecast_date = d)) =
                (g2.2.find? (fun f => f.forecast_date = d))
              unfold groupAppendTo
              rw [if_neg (by rw [hg2key]; exact fun hc => hl hc.symm)]
          rw [hlhs, if_neg (fun hcon => hl hcon.2.1)]
    | none =>
      dsimp only
      by_cases hl : rowLocId row = l
      · subst hl
        have hacc : lookupGroup acc (rowLocId row) d = none := by
          unfold lookupGroup
          rw [hfind]
          rfl
        have hlhs :
            lookupGroup (acc ++ [(rowLocId row, [row])]) (rowLocId row) d =
            List.find? (fun f => f.forecast_date = d) [row] := by
          unfold lookupGroup
          rw [List.find?_append, hfind]
          show (List.find? (fun g => g.1 = rowLocId row)
            [(rowLocId row, [row])]).bind
              (fun g => g.2.find? (fun f => f.forecast_date = d)) = _
          rw [List.find?_cons_of_pos _ (by simp)]
          rfl
        rw [hlhs]
        by_cases hd : row.forecast_date = d
        · rw [if_pos ⟨hpass, rfl, hd, hacc⟩,
            List.find?_cons_of_pos _ (by simpa using hd)]
        · rw [if_neg (fun hcon => hd hcon.2.2.1), hacc,
            List.find?_cons_of_neg _ (by simpa using hd)]
          rfl
      · have hlhs : lookupGroup (acc ++ [(rowLocId row, [row])]) l d =
            lookupGroup acc l d := by
          unfold lookupGroup
          rw [List.find?_append,
            List.find?_cons_of_neg _ (by simpa using hl), List.find?_nil,
            Option.or_none]
        rw [hlhs, if_neg (fun hcon => hl hcon.2.1)]

lemma lookupGroup_groupForecasts (requested : List String)
    (rows : List WeatherForecastDB) (l d : String) :
    lookupGroup (groupForecasts requested rows) l d =
      firstRowFor requested rows l d := by
  induction rows using List.reverseRecOn with
  | nil => rfl
  | append_singleton rows r ih =>
    have hfold : groupForecasts requested (rows ++ [r]) =
        groupInsert requested (groupForecasts requested rows) r := by
      unfold groupForecasts
      rw [List.foldl_append]
      rfl
    have happ : firstRowFor requested (rows ++ [r]) l d =
        (firstRowFor requested rows l d).or
          (firstRowFor requested [r] l d) := by
      unfold firstRowFor
      rw [List.find?_append]
    rw [hfold, lookupGroup_groupInsert, ih, happ]
    cases hfirst : firstRowFor requested rows l d with
    | some x =>
      rw [if_neg]
      · rfl
      · rintro ⟨-, -, -, hnone⟩
        exact Option.noConfusion hnone
    | none =>
      by_cases hcond :
          (¬ (requested ≠ [] ∧ ¬ requested.contains (rowLocId r) = true)) ∧
          rowLocId r = l ∧ r.forecast_date = d
      · rw [if_pos ⟨hcond.1, hcond.2.1, hcond.2.2, rfl⟩]
        show _ = (firstRowFor requested [r] l d)
        unfold firstRowFor
        apply Eq.symm
        apply List.find?_cons_of_pos
        exact decide_eq_true hcond
      · rw [if_neg (fun hcon => hcond ⟨hcon.1, hcon.2.1, hcon.2.2.1⟩)]
        show _ = (firstRowFor requested [r] l d)
        unfold firstRowFor
        rw [List.find?_cons_of_neg _
          (by simp only [decide_eq_true_eq]; exact hcond), List.find?_nil]

lemma keys_map_groupAppendTo (locId : String) (row : WeatherForecastDB)
    (acc : List (String × List WeatherForecastDB)) :
    (acc.map (groupAppendTo locId row)).map Prod.fst = acc.map Prod.fst := by
  rw [List.map_map]
  exact List.map_congr_left (fun g _ => groupAppendTo_fst locId row g)

lemma groupInsert_preserves_wellFormed (requested : List String)
    (acc : List (String × List WeatherForecastDB)) (row : WeatherForecastDB)
    (h1 : (acc.map Prod.fst).Nodup)
    (h2 : ∀ g ∈ acc, (g.2.map (fun f => f.forecast_date)).Nodup) :
    ((groupInsert requested acc row).map Prod.fst).Nodup ∧
      ∀ g ∈ groupInsert requested acc row,
        (g.2.map (fun f => f.forecast_date)).Nodup := by
  unfold groupInsert
  dsimp only
  by_cases hpass : requested ≠ [] ∧ ¬ requested.contains (rowLocId row) = true
  · rw [if_pos hpass]
    exact ⟨h1, h2⟩
  · rw [if_neg hpass]
    cases hfind : acc.find? (fun g => g.1 = rowLocId row) with
    | some g =>
      have hgkey : g.1 = rowLocId row := by simpa using List.find?_some hfind
      have hgmem : g ∈ acc := List.mem_of_find?_eq_some hfind
      dsimp only
      by_cases hdup :
          g.2.any (fun f => f.forecast_date = row.forecast_date) = true
      · rw [if_pos hdup]
        exact ⟨h1, h2⟩
      · rw [if_neg hdup]
        have hdup2 : g.2.any
            (fun f => f.forecast_date = row.forecast_date) = false := by
          simpa using hdup
        constructor
        · rw [keys_map_groupAppendTo]
          exact h1
        · intro g' hg'
          obtain ⟨g0, hg0, hg0eq⟩ := List.mem_map.mp hg'
          subst hg0eq
          unfold groupAppendTo
          by_cases hk : g0.1 = rowLocId row
          · rw [if_pos hk]
            have hg0g : g0 = g :=
              List.inj_on_of_nodup_map h1 hg0 hgmem (by rw [hk, hgkey])
            subst hg0g
            dsimp only
            rw [List.map_append]
            rw [List.nodup_append]
            refine ⟨h2 g0 hg0, List.nodup_singleton _, ?_⟩
            intro a ha hb
            simp only [List.map_cons, List.map_nil, List.mem_singleton] at hb
            subst hb
            obtain ⟨x, hx, hxd⟩ := List.mem_map.mp ha
            exact (List.any_eq_false.mp hdup2) x hx (by simp [hxd])
          · rw [if_neg hk]
            exact h2 g0 hg0
    | none =>
      dsimp only
      constructor
      · rw [List.map_append]
        rw [List.nodup_append]
        refine ⟨h1, by simp, ?_⟩
        intro a ha hb
        simp only [List.map_cons, List.map_nil, List.mem_singleton] at hb
        subst hb
        obtain ⟨g0, hg0, hg0k⟩ := List.mem_map.mp ha
        rw [List.find?_eq_none] at hfind
        exact (hfind g0 hg0) (by simpa using hg0k)
      · intro g' hg'
        rw [List.mem_append] at hg'
        rcases hg' with hg' | hg'
        · exact h2 g' hg'
        · simp only [List.mem_singleton] at hg'
          subst hg'
          simp

lemma groupForecasts_wellFormed (requested : List String)
    (rows : List WeatherForecastDB) :
    ((groupForecasts requested rows).map Prod.fst).Nodup ∧
      ∀ g ∈ groupForecasts requested rows,
        (g.2.map (fun f => f.forecast_date)).Nodup := by
  induction rows using List.reverseRecOn with
  | nil => exact ⟨List.nodup_nil, by simp [groupForecasts]⟩
  | append_singleton rows r ih =>
    have hfold : groupForecasts requested (rows ++ [r]) =
        groupInsert requested (groupForecasts requested rows) r := by
      unfold groupForecasts
      rw [List.foldl_append]
      rfl
    rw [hfold]
    exact groupInsert_preserves_wellFormed requested _ r ih.1 ih.2

/-- C5 counterexample: in the `runSynthesis`/`loadSystemContext` grouping,
two rows sharing the (suan_ban, 2026-01-26) key de-duplicate to the FIRST
row encountered — the last-one-wins policy does not hold for this cited
variant. -/
theorem dedup_last_wins_counterexample :
    groupForecasts [] [forecastRowFirst, forecastRowSecond] =
      [("suan_ban", [forecastRowFirst])] ∧
    forecastRowFirst ≠ forecastRowSecond := by
  exact ⟨rfl, by decide⟩

/-- C5 amended: both de-duplication variants leave at most one record per
(plot, date) key, but they disagree on which record survives: the Map-based
insight-synthesis variant keeps the LAST row encountered for a key, while
the grouped `runSynthesis`/`loadSystemContext` variant keeps the FIRST row
encountered (per resolved location and date, after the requested-plot
filter). -/
theorem forecast_dedup_policy :
    (∀ rows : List DailyForecast,
      ((dedupeLastWins rows).map dedupKey).Nodup) ∧
    (∀ (rows : List DailyForecast) (k : String),
      findByKey (dedupeLastWins rows) k = lastWithKey rows k) ∧
    (∀ (requested : List String) (rows : List WeatherForecastDB),
      ((groupForecasts requested rows).map Prod.fst).Nodup ∧
      ∀ g ∈ groupForecasts requested rows,
        (g.2.map (fun f => f.forecast_date)).Nodup) ∧
    (∀ (requested : List String) (rows : List WeatherForecastDB) (l d : String),
      lookupGroup (groupForecasts requested rows) l d =
        firstRowFor requested rows l d) :=
  ⟨keys_nodup_dedupeLastWins, findByKey_dedupeLastWins,
    groupForecasts_wellFormed, lookupGroup_groupForecasts⟩

/-- C5 amended witness: on the concrete duplicate pairs, the Map-based
variant keeps the second (last) row while the grouped variant keeps the
first row. -/
theorem forecast_dedup_policy_witness :
    findByKey (dedupeLastWins [dupDayOne, dupDayTwo]) (dedupKey dupDayTwo) =
      lastWithKey [dupDayOne, dupDayTwo] (dedupKey dupDayTwo) ∧
    lookupGroup (groupForecasts [] [forecastRowFirst, forecastRowSecond])
        "suan_ban" "2026-01-26" =
      firstRowFor [] [forecastRowFirst, forecastRowSecond]
        "suan_ban" "2026-01-26" ∧
    ∀ g ∈ groupForecasts [] [forecastRowFirst, forecastRowSecond],
      (g.2.map (fun f => f.forecast_date)).Nodup :=
  ⟨forecast_dedup_policy.2.1 [dupDayOne, dupDayTwo] (dedupKey dupDayTwo),
    forecast_dedup_policy.2.2.2 [] [forecastRowFirst, forecastRowSecond]
      "suan_ban" "2026-01-26",
    (forecast_dedup_policy.2.2.1 [] [forecastRowFirst, forecastRowSecond]).2⟩

/-- C7 (divergence evidence): requesting plot `suan_lang` while only
`suan_ban` has forecast rows puts exactly `suan_lang` into `missing_plots`
but leaves the integrity field at `fresh` — the cited
`runSynthesis`/`loadSystemContext` gap analysis never downgrades integrity
on missing requested plots (the older `synthesize-insights` script variant
does downgrade in that situation). -/
theorem gapAnalysis_missing_plot_keeps_fresh :
    runSynthesisGapAnalysis ["suan_lang"] [forecastRowFirst] =
      { integrity := Integrity.fresh
        missing_plots := ["suan_lang"]
        external_search_needed := false
        notes := ["Missing forecast for plots: suan_lang"] } := rfl

/-- The gap-analysis fields of the cited variants in full generality:
`missing_plots` is exactly the list of requested plots without forecast
coverage, and `integrity` depends only on whether any forecast row exists —
it is never downgraded by missing plots. -/
theorem gapAnalysis_fields (requested : List String)
    (forecasts : List WeatherForecastDB) :
    (runSynthesisGapAnalysis requested forecasts).missing_plots =
      requested.filter (fun p =>
        ¬ ((groupForecasts requested forecasts).map (fun g => g.1)).contains p) ∧
    (runSynthesisGapAnalysis requested forecasts).integrity =
      (if forecasts.length > 0 then Integrity.fresh else Integrity.stale) := by
  unfold runSynthesisGapAnalysis
  dsimp only
  by_cases hlen : forecasts.length > 0
  · rw [if_pos hlen, if_pos hlen]
    by_cases hreq : requested.length > 0
    · rw [if_pos hreq]
      by_cases hmiss : (requested.filter (fun p =>
          ¬ ((groupForecasts requested forecasts).map (fun g => g.1)).contains
            p)).length > 0
      · rw [if_pos hmiss]
        exact ⟨rfl, rfl⟩
      · rw [if_neg hmiss]
        refine ⟨?_, rfl⟩
        have : (requested.filter (fun p =>
            ¬ ((groupForecasts requested forecasts).map (fun g => g.1)).contains
              p)).length = 0 := by omega
        exact (List.length_eq_zero.mp this).symm
    · rw [if_neg hreq]
      refine ⟨?_, rfl⟩
      have : requested = [] := by
        cases requested with
        | nil => rfl
        | cons a l => simp at hreq
      subst this
      rfl
  · rw [if_neg hlen, if_neg hlen]
    by_cases hreq : requested.length > 0
    · rw [if_pos hreq]
      by_cases hmiss : (requested.filter (fun p =>
          ¬ ((groupForecasts requested forecasts).map (fun g => g.1)).contains
            p)).length > 0
      · rw [if_pos hmiss]
        exact ⟨rfl, rfl⟩
      · rw [if_neg hmiss]
        refine ⟨?_, rfl⟩
        have : (requested.filter (fun p =>
            ¬ ((groupForecasts requested forecasts).map (fun g => g.1)).contains
              p)).length = 0 := by omega
        exact (List.length_eq_zero.mp this).symm
    · rw [if_neg hreq]
      refine ⟨?_, rfl⟩
      have : requested = [] := by
        cases requested with
        | nil => rfl
        | cons a l => simp at hreq
      subst this
      rfl

-- ===========================================================================
-- Rounding and formula lemmas (C8, C3)
-- ===========================================================================

lemma round_mono_real {x y : ℝ} (h : x ≤ y) : round x ≤ round y := by
  rw [round_eq, round_eq]
  exact Int.floor_mono (by linarith)

lemma round2_mono {x y : ℝ} (h : x ≤ y) : round2 x ≤ round2 y := by
  unfold round2
  have h1 : round (100 * x) ≤ round (100 * y) :=
    round_mono_real (by linarith)
  have h2 : ((round (100 * x) : ℤ) : ℝ) ≤ ((round (100 * y) : ℤ) : ℝ) := by
    exact_mod_cast h1
  linarith

lemma round2_zero : round2 0 = 0 := by
  unfold round2
  simp

lemma round2_nonneg {x : ℝ} (h : 0 ≤ x) : 0 ≤ round2 x := by
  have := round2_mono h
  rwa [round2_zero] at this

lemma round2_nonpos {x : ℝ} (h : x ≤ 0) : round2 x ≤ 0 := by
  have := round2_mono h
  rwa [round2_zero] at this

/-- C8: the VPD formula returns exactly 0 at 100% relative humidity for
every temperature, is non-negative for every humidity in [0, 100], and is
monotonically increasing as humidity decreases (antitone in `rh`) at fixed
temperature. -/
theorem calculateVPD_guarantees :
    (∀ t : ℝ, calculateVPD t 100 = 0) ∧
    (∀ t rh : ℝ, 0 ≤ rh → rh ≤ 100 → 0 ≤ calculateVPD t rh) ∧
    (∀ t rh1 rh2 : ℝ, rh1 ≤ rh2 →
      calculateVPD t rh2 ≤ calculateVPD t rh1) := by
  have hsvp : ∀ t : ℝ, 0 < 0.6108 * Real.exp ((17.27 * t) / (t + 237.3)) := by
    intro t
    positivity
  refine ⟨?_, ?_, ?_⟩
  · intro t
    unfold calculateVPD
    dsimp only
    have harg : 0.6108 * Real.exp ((17.27 * t) / (t + 237.3)) -
        0.6108 * Real.exp ((17.27 * t) / (t + 237.3)) * ((100 : ℝ) / 100) =
        0 := by
      norm_num
    rw [harg]
    exact round2_zero
  · intro t rh h0 h100
    unfold calculateVPD
    dsimp only
    apply round2_nonneg
    have hle : 0.6108 * Real.exp ((17.27 * t) / (t + 237.3)) * (rh / 100) ≤
        0.6108 * Real.exp ((17.27 * t) / (t + 237.3)) := by
      nlinarith [hsvp t]
    linarith
  · intro t rh1 rh2 hle
    unfold calculateVPD
    dsimp only
    apply round2_mono
    nlinarith [hsvp t]

/-- C8 witness: concrete instances of the three VPD guarantees at 25 °C. -/
theorem calculateVPD_guarantees_witness :
    calculateVPD 25 100 = 0 ∧ 0 ≤ calculateVPD 25 50 ∧
    calculateVPD 25 80 ≤ calculateVPD 25 50 :=
  ⟨calculateVPD_guarantees.1 25,
    calculateVPD_guarantees.2.1 25 50 (by norm_num) (by norm_num),
    calculateVPD_guarantees.2.2 25 50 80 (by norm_num)⟩

/-- C3 (divergence evidence): for every input with `tempMax < tempMin` the
ETo computation silently returns `NaN` — in the source,
`Math.pow(tMax - tMin, 0.5)` is `NaN` and `NaN` survives the product,
`toFixed`, `Number` and `Math.max(0, ·)` — instead of raising the
descriptive domain error the specification requires. -/
theorem calculateHargreavesETo_nan_on_inverted_range
    (tMax tMin lat : ℝ) (J : ℤ) (h : tMax < tMin) :
    calculateHargreavesETo tMax tMin lat J = JsNum.nan := by
  unfold calculateHargreavesETo
  rw [if_pos h]

/-- C3 witness: the concrete inverted range `tMax = 20 < tMin = 25` yields
`NaN`, not an error. -/
theorem calculateHargreavesETo_nan_witness :
    calculateHargreavesETo 20 25 13 100 = JsNum.nan :=
  calculateHargreavesETo_nan_on_inverted_range 20 25 13 100 (by norm_num)

/-- The floor half of the ETo contract does hold in the source: when
`tempMax ≥ tempMin` the function returns a number, never negative, and
exactly 0 whenever the raw Hargreaves value is non-positive. -/
theorem calculateHargreavesETo_floor (tMax tMin lat : ℝ) (J : ℤ)
    (h : tMin ≤ tMax) :
    (∃ x : ℝ, calculateHargreavesETo tMax tMin lat J = JsNum.val x ∧
      0 ≤ x) ∧
    (rawHargreaves tMax tMin lat J ≤ 0 →
      calculateHargreavesETo tMax tMin lat J = JsNum.val 0) := by
  unfold calculateHargreavesETo
  rw [if_neg (not_lt.mpr h)]
  constructor
  · exact ⟨_, rfl, le_max_left 0 _⟩
  · intro hraw
    have hle : round2 (rawHargreaves tMax tMin lat J) ≤ 0 :=
      round2_nonpos hraw
    rw [max_eq_left hle]

end OrchardSync
